import Mathlib

/-!
# Verification of `watch-rs`

A shallow embedding of the `watch` function from `src/watch-rs/src/lib.rs`
(crate `watch-rs`), together with theorems settling the frozen claims about
its specification.

The Rust function drives a render/execute/poll loop over `crossterm`.  We
embed it as a pure function from a *script* — the sequence of child-process
outcomes and keyboard events the environment delivers, one entry per loop
iteration — to the trace of terminal actions the function performs plus a
result describing how it left the loop.  Terminal writes become constructors
of an `Action` type; `std::io` calls that merely push bytes are recorded in
the trace; the fallible exits of the Rust function (`return Err(...)`,
panics from `expect`/`unwrap`) become constructors of `WatchResult`.

Machine integers: the terminal width/height are `u16` in the source
(`crossterm::terminal::size()`); the u16 subtractions on the right-align
columns are modelled by `u16sub`, explicit wrapping arithmetic modulo
`2 ^ 16` (release-build semantics of `-` on `u16`).
-/

namespace WatchRs

/-! ## Terminal actions and styles (crossterm commands) -/

/-- The styling attributes the source applies (`rapid_blink`, `bold`,
`bold().underlined()`, `italic`). -/
inductive Style where
  | rapidBlink
  | bold
  | boldUnderlined
  | italic
  deriving DecidableEq, Repr

/-- One terminal-affecting step performed by `watch`: the `crossterm`
commands it queues or executes, the explicit `stdout().flush()` calls, and
the spawning of the child process (`Command::new(program).arg(command_arg)
.arg(&full_watch_command).output()`), recorded with the program, the flag
and the shell-evaluated line. -/
inductive Action where
  | enableRawMode
  | hideCursor
  | enterAlt
  | enableLineWrap
  | clearAll
  | moveTo (col row : Nat)
  | moveToColumn (col : Nat)
  | moveToNextLine (n : Nat)
  | print (s : String)
  | printStyled (s : String) (st : Style)
  | exec (prog flag line : String)
  | flush
  | leaveAlt
  | showCursor
  | disableLineWrap
  | disableRawMode
  deriving DecidableEq, Repr

/-! ## Keyboard events (crossterm `Event`) -/

/-- Key codes as far as the source inspects them: `KeyCode::Char(c)` and
everything else. -/
inductive KeyCode where
  | char (c : Char)
  | other
  deriving DecidableEq, Repr

/-- `crossterm::event::KeyModifiers::CONTROL` as a bitmask value. -/
def CONTROL : Nat := 2

/-- An input event as the wait loop sees it: a key event with its code and
modifier bitmask, or any non-key event (resize, mouse, ...), which the
source ignores. -/
inductive Event where
  | key (code : KeyCode) (modifiers : Nat)
  | nonKey
  deriving DecidableEq, Repr

/-- The guard of the `match read()?` arm in the wait loop:
`event.code == KeyCode::Char(q) || (event.code == KeyCode::Char(c) &&
event.modifiers == KeyModifiers::CONTROL)` (with q and c as character
literals). -/
def isQuitEvent : Event → Bool
  | .key (.char c) mods => c = 'q' ∨ (c = 'c' ∧ mods = CONTROL)
  | _ => false

/-! ## UTF-8 decoding (`String::from_utf8`)

The source decodes the captured `stdout`/`stderr` byte vectors with
`String::from_utf8(...).expect(...)`.  We embed the standard UTF-8
validation/decoding over byte lists (bytes as `Nat` below 256), written with
an explicit fuel argument so that it is structurally recursive and reduces
inside the kernel; `decodeUtf8` instantiates the fuel with the list length,
which always suffices because every step consumes at least one byte. -/

/-- A UTF-8 continuation byte: `0x80 ≤ b ≤ 0xBF`. -/
def isCont (b : Nat) : Bool := 0x80 ≤ b && b ≤ 0xBF

def decodeUtf8Fuel : Nat → List Nat → Option (List Char)
  | _, [] => some []
  | 0, _ :: _ => none
  | fuel + 1, b :: rest =>
    if b ≤ 0x7F then
      (decodeUtf8Fuel fuel rest).map (fun cs => Char.ofNat b :: cs)
    else if 0xC2 ≤ b && b ≤ 0xDF then
      match rest with
      | b1 :: r =>
        if isCont b1 then
          (decodeUtf8Fuel fuel r).map
            (fun cs => Char.ofNat ((b - 0xC0) * 0x40 + (b1 - 0x80)) :: cs)
        else none
      | [] => none
    else if 0xE0 ≤ b && b ≤ 0xEF then
      match rest with
      | b1 :: b2 :: r =>
        if (if b = 0xE0 then 0xA0 ≤ b1 && b1 ≤ 0xBF
            else if b = 0xED then 0x80 ≤ b1 && b1 ≤ 0x9F
            else isCont b1) && isCont b2 then
          (decodeUtf8Fuel fuel r).map
            (fun cs =>
              Char.ofNat ((b - 0xE0) * 0x1000 + (b1 - 0x80) * 0x40 + (b2 - 0x80)) :: cs)
        else none
      | _ => none
    else if 0xF0 ≤ b && b ≤ 0xF4 then
      match rest with
      | b1 :: b2 :: b3 :: r =>
        if (if b = 0xF0 then 0x90 ≤ b1 && b1 ≤ 0xBF
            else if b = 0xF4 then 0x80 ≤ b1 && b1 ≤ 0x8F
            else isCont b1) && isCont b2 && isCont b3 then
          (decodeUtf8Fuel fuel r).map
            (fun cs =>
              Char.ofNat ((b - 0xF0) * 0x40000 + (b1 - 0x80) * 0x1000 +
                (b2 - 0x80) * 0x40 + (b3 - 0x80)) :: cs)
        else none
      | _ => none
    else none

/-- `String::from_utf8` on a byte vector: `some` of the decoded characters
when the bytes are valid UTF-8, `none` otherwise. -/
def decodeUtf8 (bytes : List Nat) : Option (List Char) :=
  decodeUtf8Fuel bytes.length bytes

/-! ## Whitespace trimming (`str::trim`) -/

/-- Rust `char::is_whitespace`: the Unicode `White_Space` property
(the 25 code points U+0009–U+000D, U+0020, U+0085, U+00A0, U+1680,
U+2000–U+200A, U+2028, U+2029, U+202F, U+205F, U+3000). -/
def isRustWhitespace (c : Char) : Bool :=
  (0x09 ≤ c.toNat && c.toNat ≤ 0x0D) || c.toNat = 0x20 || c.toNat = 0x85 ||
  c.toNat = 0xA0 || c.toNat = 0x1680 ||
  (0x2000 ≤ c.toNat && c.toNat ≤ 0x200A) ||
  c.toNat = 0x2028 || c.toNat = 0x2029 || c.toNat = 0x202F ||
  c.toNat = 0x205F || c.toNat = 0x3000

/-- Rust `str::trim` on a character list: remove the maximal leading and
trailing runs of whitespace. -/
def rustTrim (l : List Char) : List Char :=
  ((l.dropWhile isRustWhitespace).reverse.dropWhile isRustWhitespace).reverse

/-- Rust `str::trim` on a string. -/
def rustTrimStr (s : String) : String := ⟨rustTrim s.data⟩

/-! ## The pieces of `watch` -/

/-- `u16` wrapping subtraction (release-build semantics of `a - b` on
`u16`, with the usual `as u16` truncation on each operand):
`(a - b) mod 2 ^ 16`. -/
def u16sub (a b : Nat) : Nat :=
  (a % 65536 + (65536 - b % 65536)) % 65536

/-- Rust `Vec::join(" ")`: the empty vector joins to the empty string, a
singleton joins to itself, and otherwise the separator is placed between
consecutive elements. -/
def joinSpace : List String → String
  | [] => ""
  | [s] => s
  | s :: rest => s ++ " " ++ joinSpace rest

/-- `full_watch_command`: the source does
`command.to_owned()`, `push_str(" ")`, `push_str(args.join(" "))`. -/
def fullWatchCommand (command : String) (args : List String) : String :=
  command ++ " " ++ joinSpace args

/-- The `QUIT_MSG` constant of the source. -/
def QUIT_MSG : String := "Press \x27q\x27 or \x27Ctrl+C\x27 to exit"

/-- `interval_msg`: the formatted interval banner. -/
def intervalMsg (interval : Nat) : String :=
  "Interval: " ++ toString interval ++ "s"

/-- The panic message of `output.status.code().unwrap()` on `None`. -/
def unwrapNoneMsg : String := "called `Option::unwrap()` on a `None` value"

/-- The configuration a run of `watch` closes over: the three arguments of
the Rust function plus the terminal size reported by
`crossterm::terminal::size()` (a pair of `u16`), which the claims treat as
fixed across the run. -/
structure WatchConfig where
  command : String
  args : List String
  interval : Nat
  width : Nat
  height : Nat
  deriving DecidableEq, Repr

/-- One child-process result as `Command::output()` reports it:
`status.success()`, `status.code()`, and the raw captured byte vectors. -/
structure CycleOutcome where
  success : Bool
  exitCode : Option Int
  stdoutBytes : List Nat
  stderrBytes : List Nat
  deriving DecidableEq, Repr

/-- The environment input of one loop iteration: the child-process outcome plus
the keyboard events that arrive during the subsequent wait phase (in
arrival order, within the interval window). -/
structure Iter where
  outcome : CycleOutcome
  events : List Event
  deriving DecidableEq, Repr

/-- How a run of the embedded `watch` ends.

* `completed` — the loop broke out via the quit branch and the function
  returned `Ok(())`;
* `execError n` — the early `return Err(Error::other(format!(..)))` exit:
  an error value carrying the exit code `n` of the child in its formatted
  message `Command failed with exitCode: n`;
* `panicked msg` — an `expect`/`unwrap` panic with message `msg` (not a
  return value: the function aborts);
* `scriptEnded` — the supplied script ran out while the loop would keep
  iterating (the real loop only stops via the other three). -/
inductive WatchResult where
  | completed
  | execError (code : Int)
  | panicked (msg : String)
  | scriptEnded
  deriving DecidableEq, Repr

/-- The header render of each iteration (the first `queue!`): clear, home,
`"> "`, the blinking command line, the right-aligned bold interval banner,
then two lines down.  The right-align column is the `u16` expression
`size().unwrap().0 - interval_msg.len() as u16`. -/
def headerRender (cfg : WatchConfig) : List Action :=
  [ .clearAll, .moveTo 0 0, .print "> ",
    .printStyled (fullWatchCommand cfg.command cfg.args) .rapidBlink,
    .moveToColumn (u16sub cfg.width (intervalMsg cfg.interval).length),
    .printStyled (intervalMsg cfg.interval) .bold,
    .moveToNextLine 2 ]

/-- The spawn of the child: `Command::new("sh").arg("-c")
.arg(&full_watch_command).output()` (POSIX branch of the `cfg!(windows)`
split). -/
def execAction (cfg : WatchConfig) : Action :=
  .exec "sh" "-c" (fullWatchCommand cfg.command cfg.args)

/-- The unconditional part of the body render: the bold/underlined
`"Output:"` label and the trimmed stdout. -/
def outputSection (stdOutput : String) : List Action :=
  [ .printStyled "Output:" .boldUnderlined, .moveToNextLine 1,
    .print stdOutput, .moveToNextLine 1 ]

/-- The conditional part of the body render: the `"StdErr:"` label and the
trimmed stderr, queued only under `!std_error.is_empty()`. -/
def stderrSection (stdError : String) : List Action :=
  if stdError = "" then []
  else
    [ .printStyled "StdErr:" .boldUnderlined, .moveToNextLine 1,
      .print stdError, .moveToNextLine 1 ]

/-- The in-loop body render (the queues between the decode step and the
flush): output section, conditional stderr section, and the italic
`QUIT_MSG` footer at `(width - QUIT_MSG.len(), height - 1)` in `u16`
arithmetic. -/
def bodyRender (stdOutput stdError : String) (width height : Nat) : List Action :=
  outputSection stdOutput ++ stderrSection stdError ++
  [ .moveTo (u16sub width QUIT_MSG.length) (u16sub height 1),
    .printStyled QUIT_MSG .italic ]

/-- The final render performed inside the quit branch of the wait loop:
leave the alternate screen, print `"> "` and the command line, re-print the
output and conditional stderr sections, flush. -/
def finalRender (fullCmd stdOutput stdError : String) : List Action :=
  [ .leaveAlt, .print "> ", .print fullCmd, .moveToNextLine 2 ]
  ++ outputSection stdOutput ++ stderrSection stdError ++ [ .flush ]

/-- Outcome of the wait phase. -/
inductive WaitOutcome where
  | quitKey
  | timedOut
  deriving DecidableEq, Repr

/-- The wait-with-cancellation loop
(`while start_time.elapsed() < interval_duration { if poll(..)? { .. } }`).
With interval `0` the guard `elapsed < Duration::from_secs(0)` is false at
the first check (elapsed time is never below zero), so the body runs zero
times and no event is ever polled.  With a positive interval the loop polls
the events arriving within the window in order, breaking out on the first
quit event and ignoring every other event. -/
def waitPhase (interval : Nat) (events : List Event) : WaitOutcome :=
  if interval = 0 then .timedOut
  else if events.any isQuitEvent then .quitKey else .timedOut

/-- The actions `execute!`d before the loop: `enable_raw_mode()` then
`Hide, EnterAlternateScreen, EnableLineWrap`. -/
def enterActions : List Action :=
  [ .enableRawMode, .hideCursor, .enterAlt, .enableLineWrap ]

/-- The actions after the only `break` of the loop:
`execute!(stdout(), Show, DisableLineWrap)` then `disable_raw_mode()`. -/
def restoreTail : List Action :=
  [ .showCursor, .disableLineWrap, .disableRawMode ]

/-- The body of the labeled watch loop, iterated over the script.  Each
iteration: header render, spawn, the non-zero-exit check (early `return
Err` / `unwrap` panic), UTF-8 decoding (`expect` panics), trimming, body
render, flush, then the wait phase — quit breaks out with the final render,
timeout recurses on the rest of the script. -/
def watchLoop (cfg : WatchConfig) : List Iter → List Action × WatchResult
  | [] => ([], .scriptEnded)
  | it :: rest =>
    let tr0 := headerRender cfg ++ [execAction cfg]
    if it.outcome.success then
      match decodeUtf8 it.outcome.stdoutBytes with
      | none => (tr0, .panicked "Get stdout")
      | some outChars =>
        match decodeUtf8 it.outcome.stderrBytes with
        | none => (tr0, .panicked "Get stderr")
        | some errChars =>
          let stdOutput := rustTrimStr ⟨outChars⟩
          let stdError := rustTrimStr ⟨errChars⟩
          let tr1 := tr0 ++ bodyRender stdOutput stdError cfg.width cfg.height ++ [.flush]
          match waitPhase cfg.interval it.events with
          | .quitKey =>
            (tr1 ++ finalRender (fullWatchCommand cfg.command cfg.args) stdOutput stdError,
             .completed)
          | .timedOut =>
            (tr1 ++ (watchLoop cfg rest).1, (watchLoop cfg rest).2)
    else
      match it.outcome.exitCode with
      | some n => (tr0, .execError n)
      | none => (tr0, .panicked unwrapNoneMsg)

/-- The whole `watch` function: enter raw/alternate mode, run the loop over
the script, and perform the post-loop restoration only when the loop ended
through its `break` (the `return Err` exits and the panics leave the
function without reaching the two restoration lines). -/
def watch (cfg : WatchConfig) (script : List Iter) : List Action × WatchResult :=
  match watchLoop cfg script with
  | (tr, .completed) => (enterActions ++ tr ++ restoreTail, .completed)
  | (tr, r) => (enterActions ++ tr, r)

/-- The trace of one iteration run in isolation. -/
def iterTrace (cfg : WatchConfig) (it : Iter) : List Action :=
  (watchLoop cfg [it]).1

/-- An iteration that completes normally and lets the loop continue: the
child succeeded, both streams decode, and the wait phase timed out. -/
def normalIter (cfg : WatchConfig) (it : Iter) : Prop :=
  it.outcome.success = true ∧
  (∃ oc, decodeUtf8 it.outcome.stdoutBytes = some oc) ∧
  (∃ ec, decodeUtf8 it.outcome.stderrBytes = some ec) ∧
  waitPhase cfg.interval it.events = .timedOut

/-- The restoration actions of the Terminal Session Manager contract:
leaving the alternate screen, showing the cursor, disabling line wrap,
disabling raw mode. -/
def isRestoreAction : Action → Bool
  | .leaveAlt => true
  | .showCursor => true
  | .disableLineWrap => true
  | .disableRawMode => true
  | _ => false

/-! ## Concrete inputs used by the closed theorems -/

/-- A run configuration with a one-second interval on an 80x24 terminal. -/
def cfgFail : WatchConfig := ⟨"x", [], 1, 80, 24⟩

/-- A script whose single cycle exits unsuccessfully with code 2. -/
def scriptFail : List Iter := [⟨⟨false, some 2, [], []⟩, []⟩]

/-- A script whose single cycle succeeds with stdout `ok` (bytes 111, 107),
empty stderr, and a plain `q` key event during the wait. -/
def scriptQuit : List Iter :=
  [⟨⟨true, some 0, [111, 107], []⟩, [.key (.char 'q') 0]⟩]

/-- The configuration for the quit-path demonstration. -/
def cfgDemo : WatchConfig := ⟨"echo", ["ok"], 1, 80, 24⟩

/-- A narrow-terminal configuration: width 10, interval 5 (so the interval
banner `Interval: 5s` is 12 characters wide). -/
def cfgNarrow : WatchConfig := ⟨"x", [], 5, 10, 24⟩

/-- A terminal of width 20: wide enough for the 12-character interval
banner `Interval: 5s`, but narrower than the 29-character quit hint. -/
def cfgMid : WatchConfig := ⟨"x", [], 5, 20, 24⟩

/-- A configuration with interval 0. -/
def cfgZero : WatchConfig := ⟨"x", [], 0, 80, 24⟩

end WatchRs

namespace WatchRs

/-! ## Helper lemmas: trimming -/

/-- `dropWhile` is idempotent. -/
theorem dropWhile_dropWhile (p : α → Bool) (l : List α) :
    (l.dropWhile p).dropWhile p = l.dropWhile p := by
  induction l with
  | nil => rfl
  | cons a t ih =>
    by_cases hp : p a
    · simp [List.dropWhile_cons, hp, ih]
    · simp [List.dropWhile_cons, hp]

/-- A prefix of a `dropWhile` fixpoint is itself a fixpoint. -/
theorem dropWhile_eq_self_of_isPrefixLemma (p : α → Bool) {t t' : List α}
    (hfix : t.dropWhile p = t) (hpre : t' <+: t) : t'.dropWhile p = t' := by
  cases t' with
  | nil => rfl
  | cons a s =>
    by_cases hp : p a
    · exfalso
      obtain ⟨r, hr⟩ := hpre
      subst hr
      rw [List.cons_append, List.dropWhile_cons, if_pos hp] at hfix
      have hle : ((s ++ r).dropWhile p).length ≤ (s ++ r).length :=
        (List.dropWhile_suffix p).sublist.length_le
      have hlen := congrArg List.length hfix
      rw [List.length_cons] at hlen
      omega
    · simp [List.dropWhile_cons, hp]

/-- The core left after trimming both ends is a prefix of the
front-trimmed list. -/
theorem trim_core_isPrefixLemma (p : α → Bool) (l : List α) :
    ((l.dropWhile p).reverse.dropWhile p).reverse <+: l.dropWhile p := by
  have h := List.dropWhile_suffix (l := (l.dropWhile p).reverse) p
  have h2 := List.reverse_prefix.mpr h
  rwa [List.reverse_reverse] at h2

/-- The trimmed core keeps no leading `p`-run. -/
theorem trim_head_fix (p : α → Bool) (l : List α) :
    (((l.dropWhile p).reverse.dropWhile p).reverse).dropWhile p =
      ((l.dropWhile p).reverse.dropWhile p).reverse :=
  dropWhile_eq_self_of_isPrefixLemma p (dropWhile_dropWhile p l) (trim_core_isPrefixLemma p l)

/-- The trimmed core keeps no trailing `p`-run (stated on the reverse). -/
theorem trim_end_fix (p : α → Bool) (l : List α) :
    ((((l.dropWhile p).reverse.dropWhile p).reverse).reverse).dropWhile p =
      (((l.dropWhile p).reverse.dropWhile p).reverse).reverse := by
  rw [List.reverse_reverse]
  exact dropWhile_dropWhile p _

/-- Trimming both ends splits the list into a `p`-run, the core, and a
`p`-run. -/
theorem trim_decomposition (p : α → Bool) (l : List α) :
    ∃ u v, l = u ++ ((l.dropWhile p).reverse.dropWhile p).reverse ++ v ∧
      u.all p = true ∧ v.all p = true := by
  refine ⟨l.takeWhile p, ((l.dropWhile p).reverse.takeWhile p).reverse, ?_, ?_, ?_⟩
  · have hsplit : l.dropWhile p =
        ((l.dropWhile p).reverse.dropWhile p).reverse ++
          ((l.dropWhile p).reverse.takeWhile p).reverse := by
      conv_lhs =>
        rw [← List.reverse_reverse (l.dropWhile p),
          ← List.takeWhile_append_dropWhile (p := p) (l := (l.dropWhile p).reverse)]
      rw [List.reverse_append]
    conv_lhs => rw [← List.takeWhile_append_dropWhile (p := p) (l := l), hsplit]
    rw [List.append_assoc]
  · rw [List.all_eq_true]
    exact fun x hx => List.mem_takeWhile_imp hx
  · rw [List.all_eq_true]
    exact fun x hx => List.mem_takeWhile_imp (List.mem_reverse.mp hx)

/-- `rustTrim` splits its input into a whitespace envelope around the
untouched core. -/
theorem rustTrim_decomposition (l : List Char) :
    ∃ u v, l = u ++ rustTrim l ++ v ∧
      u.all isRustWhitespace = true ∧ v.all isRustWhitespace = true := by
  simpa [rustTrim] using trim_decomposition isRustWhitespace l

/-- `rustTrim` leaves no leading whitespace. -/
theorem rustTrim_head_fix (l : List Char) :
    (rustTrim l).dropWhile isRustWhitespace = rustTrim l := by
  simpa [rustTrim] using trim_head_fix isRustWhitespace l

/-- `rustTrim` leaves no trailing whitespace. -/
theorem rustTrim_end_fix (l : List Char) :
    (rustTrim l).reverse.dropWhile isRustWhitespace = (rustTrim l).reverse := by
  simpa [rustTrim] using trim_end_fix isRustWhitespace l

/-! ## Helper lemmas: unfolding the loop -/

/-- Running the loop through one normally completing iteration appends that
iteration trace and continues with the rest of the script. -/
theorem watchLoop_cons_normal (cfg : WatchConfig) (it : Iter) (rest : List Iter)
    (h : normalIter cfg it) :
    watchLoop cfg (it :: rest) =
      (iterTrace cfg it ++ (watchLoop cfg rest).1, (watchLoop cfg rest).2) := by
  obtain ⟨hs, ⟨oc, ho⟩, ⟨ec, he⟩, hw⟩ := h
  simp [watchLoop, iterTrace, hs, ho, he, hw]

/-- Running the loop through a block of normally completing iterations
flattens their traces and continues with the rest of the script. -/
theorem watchLoop_append_normal (cfg : WatchConfig) (pres rest : List Iter)
    (h : ∀ it ∈ pres, normalIter cfg it) :
    watchLoop cfg (pres ++ rest) =
      ((pres.map (iterTrace cfg)).flatten ++ (watchLoop cfg rest).1,
       (watchLoop cfg rest).2) := by
  induction pres with
  | nil => simp
  | cons it pres ih =>
    have hit := h it (by simp)
    have hrest : ∀ x ∈ pres, normalIter cfg x := fun x hx => h x (by simp [hx])
    rw [List.cons_append, watchLoop_cons_normal cfg it _ hit, ih hrest]
    simp [List.append_assoc]

/-- With interval `0` the wait phase always times out, so the loop can
never reach its quit `break`. -/
theorem watchLoop_no_quit_of_zero (cfg : WatchConfig) (h0 : cfg.interval = 0)
    (script : List Iter) : (watchLoop cfg script).2 ≠ .completed := by
  induction script with
  | nil => simp [watchLoop]
  | cons it rest ih =>
    by_cases hs : it.outcome.success = true
    · cases hdo : decodeUtf8 it.outcome.stdoutBytes with
      | none => simp [watchLoop, hs, hdo]
      | some oc =>
        cases hde : decodeUtf8 it.outcome.stderrBytes with
        | none => simp [watchLoop, hs, hdo, hde]
        | some ec =>
          have hw : waitPhase cfg.interval it.events = .timedOut := by
            simp [waitPhase, h0]
          simpa [watchLoop, hs, hdo, hde, hw] using ih
    · cases hc : it.outcome.exitCode with
      | none => simp [watchLoop, hs, hc]
      | some n => simp [watchLoop, hs, hc]

/-- The quit-hint footer is never part of the final render. -/
theorem quit_footer_not_in_finalRender (f so se : String) :
    Action.printStyled QUIT_MSG .italic ∉ finalRender f so se := by
  by_cases hse : se = "" <;>
    simp [finalRender, outputSection, stderrSection, hse, QUIT_MSG]

/-- The trimmed stdout (and, when nonempty, the trimmed stderr) is printed
by the iteration that captured it. -/
theorem print_trimmed_mem (cfg : WatchConfig) (ob eb : List Nat)
    (oc ec : List Char) (evs : List Event)
    (ho : decodeUtf8 ob = some oc) (he : decodeUtf8 eb = some ec) :
    Action.print (rustTrimStr ⟨oc⟩) ∈
      (watchLoop cfg [⟨⟨true, some 0, ob, eb⟩, evs⟩]).1 ∧
    (rustTrimStr ⟨ec⟩ ≠ "" → Action.print (rustTrimStr ⟨ec⟩) ∈
      (watchLoop cfg [⟨⟨true, some 0, ob, eb⟩, evs⟩]).1) := by
  cases hw : waitPhase cfg.interval evs <;>
    by_cases hne : rustTrimStr ⟨ec⟩ = "" <;>
      simp [watchLoop, ho, he, hw, bodyRender, outputSection, stderrSection,
        finalRender, hne]

end WatchRs

namespace WatchRs

/-! ## Claim C1 -/

/-- C1 (code bug): the spec requires the terminal restoration step (show
cursor, leave the alternate display region, disable forced line wrap,
disable raw input mode) to run exactly once on every path out of the watch
loop.  The code performs it only on the user-cancellation path: evaluating
`watch` at a cycle that exits with code 2 shows the function returning the
`ExecutionError` with *zero* restoration actions in its trace, while on the
quit path each of the four restoration actions appears exactly once. -/
theorem c1_restoration_skipped_on_error :
    (watch cfgFail scriptFail).2 = .execError 2 ∧
    (watch cfgFail scriptFail).1.filter isRestoreAction = [] ∧
    (watch cfgFail scriptQuit).1.filter isRestoreAction =
      [.leaveAlt, .showCursor, .disableLineWrap, .disableRawMode] :=
  ⟨by decide, by decide, by decide⟩

/-! ## Claim C2 -/

/-- C2: whenever an iteration observes a child exiting with a non-zero
status carrying exit code `n` (after any block of normally completing
iterations), `watch` terminates at once — the trace stops at that spawn,
nothing of the remaining script runs — and it returns the execution error
carrying `n`. -/
theorem c2_nonzero_exit_fatal (cfg : WatchConfig) (pres rest : List Iter)
    (out : CycleOutcome) (evs : List Event) (n : Int)
    (hpre : ∀ it ∈ pres, normalIter cfg it)
    (hfail : out.success = false) (hcode : out.exitCode = some n) :
    watch cfg (pres ++ ⟨out, evs⟩ :: rest) =
      (enterActions ++ (pres.map (iterTrace cfg)).flatten ++
        (headerRender cfg ++ [execAction cfg]),
       .execError n) := by
  have h2 : watchLoop cfg (⟨out, evs⟩ :: rest) =
      (headerRender cfg ++ [execAction cfg], .execError n) := by
    simp [watchLoop, hfail, hcode]
  rw [watch, watchLoop_append_normal cfg pres _ hpre, h2]
  simp [List.append_assoc]

/-- Witness for C2 at the concrete failing script. -/
theorem c2_nonzero_exit_fatal_witness :
    (∀ it ∈ ([] : List Iter), normalIter cfgFail it) ∧
    watch cfgFail ([] ++ ⟨⟨false, some 2, [], []⟩, []⟩ :: []) =
      (enterActions ++ (([] : List Iter).map (iterTrace cfgFail)).flatten ++
        (headerRender cfgFail ++ [execAction cfgFail]),
       .execError 2) :=
  ⟨fun it h => absurd h (List.not_mem_nil it),
   c2_nonzero_exit_fatal cfgFail [] [] ⟨false, some 2, [], []⟩ [] 2
     (fun it h => absurd h (List.not_mem_nil it)) rfl rfl⟩

/-! ## Claim C3 -/

/-- C3 (counterexample): on invalid UTF-8 output the code does not return a
decoding error to the caller — it panics.  At the concrete cycle whose
stdout is the invalid byte 255, `watch` ends in the `expect` panic
`Get stdout`; its result is neither an error return carrying an exit code
nor a normal completion, so no error value reaches the caller. -/
theorem c3_decode_error_counterexample :
    watch cfgFail [⟨⟨true, some 0, [255], []⟩, []⟩] =
      (enterActions ++ (headerRender cfgFail ++ [execAction cfgFail]),
       .panicked "Get stdout") ∧
    (∀ n : Int,
      (watch cfgFail [⟨⟨true, some 0, [255], []⟩, []⟩]).2 ≠ .execError n) ∧
    (watch cfgFail [⟨⟨true, some 0, [255], []⟩, []⟩]).2 ≠ .completed :=
  ⟨by decide,
   fun n => by simp [watch, watchLoop, decodeUtf8, decodeUtf8Fuel],
   by decide⟩

/-- C3 (amended): for every captured stdout or stderr byte sequence that is
not valid UTF-8, `watch` fails fatally — it panics via `expect` with
message `Get stdout` (resp. `Get stderr`) instead of returning an error
value — and the loop does not continue past that iteration. -/
theorem c3_decode_failure_is_fatal_panic :
    (∀ (cfg : WatchConfig) (pres rest : List Iter) (out : CycleOutcome)
       (evs : List Event),
       (∀ it ∈ pres, normalIter cfg it) → out.success = true →
       decodeUtf8 out.stdoutBytes = none →
       watch cfg (pres ++ ⟨out, evs⟩ :: rest) =
         (enterActions ++ (pres.map (iterTrace cfg)).flatten ++
           (headerRender cfg ++ [execAction cfg]),
          .panicked "Get stdout")) ∧
    (∀ (cfg : WatchConfig) (pres rest : List Iter) (out : CycleOutcome)
       (evs : List Event) (oc : List Char),
       (∀ it ∈ pres, normalIter cfg it) → out.success = true →
       decodeUtf8 out.stdoutBytes = some oc →
       decodeUtf8 out.stderrBytes = none →
       watch cfg (pres ++ ⟨out, evs⟩ :: rest) =
         (enterActions ++ (pres.map (iterTrace cfg)).flatten ++
           (headerRender cfg ++ [execAction cfg]),
          .panicked "Get stderr")) := by
  constructor
  · intro cfg pres rest out evs hpre hs ho
    have h2 : watchLoop cfg (⟨out, evs⟩ :: rest) =
        (headerRender cfg ++ [execAction cfg], .panicked "Get stdout") := by
      simp [watchLoop, hs, ho]
    rw [watch, watchLoop_append_normal cfg pres _ hpre, h2]
    simp [List.append_assoc]
  · intro cfg pres rest out evs oc hpre hs ho he
    have h2 : watchLoop cfg (⟨out, evs⟩ :: rest) =
        (headerRender cfg ++ [execAction cfg], .panicked "Get stderr") := by
      simp [watchLoop, hs, ho, he]
    rw [watch, watchLoop_append_normal cfg pres _ hpre, h2]
    simp [List.append_assoc]

/-- Witness for C3 at concrete invalid stdout and invalid stderr inputs. -/
theorem c3_decode_failure_is_fatal_panic_witness :
    decodeUtf8 [255] = none ∧
    watch cfgFail ([] ++ ⟨⟨true, some 0, [255], []⟩, []⟩ :: []) =
      (enterActions ++ (([] : List Iter).map (iterTrace cfgFail)).flatten ++
        (headerRender cfgFail ++ [execAction cfgFail]),
       .panicked "Get stdout") ∧
    watch cfgFail ([] ++ ⟨⟨true, some 0, [111], [128]⟩, []⟩ :: []) =
      (enterActions ++ (([] : List Iter).map (iterTrace cfgFail)).flatten ++
        (headerRender cfgFail ++ [execAction cfgFail]),
       .panicked "Get stderr") :=
  ⟨by decide,
   c3_decode_failure_is_fatal_panic.1 cfgFail [] [] ⟨true, some 0, [255], []⟩ []
     (fun it h => absurd h (List.not_mem_nil it)) rfl (by decide),
   c3_decode_failure_is_fatal_panic.2 cfgFail [] [] ⟨true, some 0, [111], [128]⟩ []
     [Char.ofNat 111]
     (fun it h => absurd h (List.not_mem_nil it)) rfl (by decide) (by decide)⟩

end WatchRs

namespace WatchRs

/-! ## Claim C4 -/

/-- C4 (counterexample): the final render on cancellation does *not* carry
the same body content as the in-loop render of step 5 — the footer hint is
missing from it.  Concretely, the italic `QUIT_MSG` footer is part of the
in-loop body render for stdout `ok` / empty stderr, but absent from the
final render of the very same cycle; the full trace of the quit-path run
shows the final segment. -/
theorem c4_final_render_counterexample :
    Action.printStyled QUIT_MSG .italic ∈ bodyRender "ok" "" 80 24 ∧
    Action.printStyled QUIT_MSG .italic ∉
      finalRender (fullWatchCommand "echo" ["ok"]) "ok" "" ∧
    (watch cfgDemo scriptQuit).1 =
      enterActions ++ headerRender cfgDemo ++ [execAction cfgDemo] ++
        bodyRender "ok" "" 80 24 ++ [.flush] ++
        finalRender "echo ok" "ok" "" ++ restoreTail :=
  ⟨by decide, by decide, by decide⟩

/-- C4 (amended): whenever a `q` or Ctrl+C key event arrives during a wait
phase, the loop cancels immediately — nothing of the remaining script runs
— and renders the already-captured current cycle output exactly once more
on the normal (non-alternate) screen: a prompt line with the command,
then the same `Output:`/conditional `StdErr:` sections as the in-loop body
render, but *without* the footer hint; it flushes and terminates (followed
only by the terminal-restoration actions). -/
theorem c4_quit_renders_once_more (cfg : WatchConfig) (pres rest : List Iter)
    (out : CycleOutcome) (evs : List Event) (oc ec : List Char)
    (hpre : ∀ it ∈ pres, normalIter cfg it)
    (hs : out.success = true)
    (ho : decodeUtf8 out.stdoutBytes = some oc)
    (he : decodeUtf8 out.stderrBytes = some ec)
    (hq : waitPhase cfg.interval evs = .quitKey) :
    watch cfg (pres ++ ⟨out, evs⟩ :: rest) =
      (enterActions ++ (pres.map (iterTrace cfg)).flatten ++
        (headerRender cfg ++ [execAction cfg] ++
          bodyRender (rustTrimStr ⟨oc⟩) (rustTrimStr ⟨ec⟩) cfg.width cfg.height ++
          [.flush] ++
          finalRender (fullWatchCommand cfg.command cfg.args)
            (rustTrimStr ⟨oc⟩) (rustTrimStr ⟨ec⟩)) ++
        restoreTail,
       .completed) ∧
    finalRender (fullWatchCommand cfg.command cfg.args)
        (rustTrimStr ⟨oc⟩) (rustTrimStr ⟨ec⟩) =
      [.leaveAlt, .print "> ", .print (fullWatchCommand cfg.command cfg.args),
        .moveToNextLine 2] ++
      outputSection (rustTrimStr ⟨oc⟩) ++ stderrSection (rustTrimStr ⟨ec⟩) ++
      [.flush] ∧
    Action.printStyled QUIT_MSG .italic ∉
      finalRender (fullWatchCommand cfg.command cfg.args)
        (rustTrimStr ⟨oc⟩) (rustTrimStr ⟨ec⟩) := by
  refine ⟨?_, rfl, quit_footer_not_in_finalRender _ _ _⟩
  have h2 : watchLoop cfg (⟨out, evs⟩ :: rest) =
      (headerRender cfg ++ [execAction cfg] ++
        bodyRender (rustTrimStr ⟨oc⟩) (rustTrimStr ⟨ec⟩) cfg.width cfg.height ++
        [.flush] ++
        finalRender (fullWatchCommand cfg.command cfg.args)
          (rustTrimStr ⟨oc⟩) (rustTrimStr ⟨ec⟩),
       .completed) := by
    simp [watchLoop, hs, ho, he, hq, List.append_assoc]
  rw [watch, watchLoop_append_normal cfg pres _ hpre, h2]
  simp [List.append_assoc]

/-- Witness for C4 at the concrete quit script. -/
theorem c4_quit_renders_once_more_witness :
    waitPhase cfgDemo.interval [Event.key (.char 'q') 0] = .quitKey ∧
    (watch cfgDemo ([] ++ ⟨⟨true, some 0, [111, 107], []⟩,
        [Event.key (.char 'q') 0]⟩ :: [])).2 = .completed := by
  refine ⟨by decide, ?_⟩
  have h := c4_quit_renders_once_more cfgDemo [] []
    ⟨true, some 0, [111, 107], []⟩ [Event.key (.char 'q') 0]
    [Char.ofNat 111, Char.ofNat 107] []
    (fun it hmem => absurd hmem (List.not_mem_nil it))
    rfl (by decide) (by decide) (by decide)
  rw [h.1]

/-! ## Claim C5 -/

/-- C5 (counterexample): with an empty argument vector the line handed to
`sh -c` is *not* the plain space-join of command and arguments: for
command `ls` and no arguments, the code builds `ls ` (with a trailing
space), whereas the space-join of the singleton is `ls`. -/
theorem c5_joined_line_counterexample :
    fullWatchCommand "ls" [] = "ls " ∧
    joinSpace ["ls"] = "ls" ∧
    fullWatchCommand "ls" [] ≠ joinSpace ["ls"] ∧
    execAction ⟨"ls", [], 5, 80, 24⟩ = .exec "sh" "-c" "ls " :=
  ⟨by decide, by decide, by decide, by decide⟩

/-- C5 (amended): for every command and argument list, the single line
passed as the shell-evaluated argument to `sh -c` is the command, a single
space, and the space-join of the arguments — no shell-escaping is applied
to any part.  For a nonempty argument list this equals the space-join of
command and arguments; for an empty list it is the command followed by a
trailing space. -/
theorem c5_joined_line (command : String) (args : List String) (i w h : Nat) :
    fullWatchCommand command args = command ++ " " ++ joinSpace args ∧
    (args ≠ [] → fullWatchCommand command args = joinSpace (command :: args)) ∧
    execAction ⟨command, args, i, w, h⟩ =
      .exec "sh" "-c" (fullWatchCommand command args) := by
  refine ⟨rfl, ?_, rfl⟩
  intro hne
  cases args with
  | nil => exact absurd rfl hne
  | cons a as => rfl

/-- Witness for C5 with a nonempty argument list. -/
theorem c5_joined_line_witness :
    (["-l"] : List String) ≠ [] ∧
    fullWatchCommand "ls" ["-l"] = joinSpace ["ls", "-l"] :=
  ⟨by decide, (c5_joined_line "ls" ["-l"] 5 80 24).2.1 (by decide)⟩

/-! ## Claim C6 -/

/-- C6: the body render prints the `StdErr:` label if and only if the
trimmed stderr is nonempty (when empty, the label is omitted entirely),
while the `Output:` label and the trimmed stdout are printed
unconditionally, and a nonempty trimmed stderr is printed after its
label. -/
theorem c6_stderr_section_iff (so se : String) (w h : Nat) :
    ((Action.printStyled "StdErr:" .boldUnderlined ∈ bodyRender so se w h) ↔
      se ≠ "") ∧
    Action.printStyled "Output:" .boldUnderlined ∈ bodyRender so se w h ∧
    Action.print so ∈ bodyRender so se w h ∧
    (se ≠ "" → Action.print se ∈ bodyRender so se w h) := by
  by_cases hse : se = "" <;>
    simp [bodyRender, outputSection, stderrSection, hse, QUIT_MSG]

/-- Witness for C6 with a nonempty stderr. -/
theorem c6_stderr_section_iff_witness :
    ("warn" : String) ≠ "" ∧
    Action.print "warn" ∈ bodyRender "ok" "warn" 80 24 :=
  ⟨by decide, (c6_stderr_section_iff "ok" "warn" 80 24).2.2.2 (by decide)⟩

end WatchRs

namespace WatchRs

/-! ## Claim C7 -/

/-- C7: the rendered content of each stream is the captured text with its
leading and trailing whitespace envelope removed and all internal
whitespace preserved: every character list splits as whitespace envelope ++
`rustTrim` core ++ whitespace envelope, the core keeps no leading or
trailing whitespace run, the concrete stdout `"\n  hello  \n"` trims to
`hello`, and an iteration of the loop prints exactly the trimmed stdout
(and trimmed stderr when nonempty), each stream trimmed independently. -/
theorem c7_trim_envelope :
    (∀ l : List Char,
      (∃ u v, l = u ++ rustTrim l ++ v ∧
        u.all isRustWhitespace = true ∧ v.all isRustWhitespace = true) ∧
      (rustTrim l).dropWhile isRustWhitespace = rustTrim l ∧
      (rustTrim l).reverse.dropWhile isRustWhitespace = (rustTrim l).reverse) ∧
    rustTrimStr "\n  hello  \n" = "hello" ∧
    (∀ (cfg : WatchConfig) (ob eb : List Nat) (oc ec : List Char)
       (evs : List Event),
      decodeUtf8 ob = some oc → decodeUtf8 eb = some ec →
      Action.print (rustTrimStr ⟨oc⟩) ∈
        (watchLoop cfg [⟨⟨true, some 0, ob, eb⟩, evs⟩]).1 ∧
      (rustTrimStr ⟨ec⟩ ≠ "" → Action.print (rustTrimStr ⟨ec⟩) ∈
        (watchLoop cfg [⟨⟨true, some 0, ob, eb⟩, evs⟩]).1)) :=
  ⟨fun l => ⟨rustTrim_decomposition l, rustTrim_head_fix l, rustTrim_end_fix l⟩,
   by decide,
   fun cfg ob eb oc ec evs ho he => print_trimmed_mem cfg ob eb oc ec evs ho he⟩

/-- Witness for C7: the envelope-trimmed stdout of the motivating example
is printed by the iteration that captured it. -/
theorem c7_trim_envelope_witness :
    decodeUtf8 [10, 32, 32, 104, 101, 108, 108, 111, 32, 32, 10] =
      some ("\n  hello  \n".data) ∧
    Action.print (rustTrimStr ⟨"\n  hello  \n".data⟩) ∈
      (watchLoop cfgFail
        [⟨⟨true, some 0, [10, 32, 32, 104, 101, 108, 108, 111, 32, 32, 10],
            []⟩, []⟩]).1 :=
  ⟨by decide,
   (c7_trim_envelope.2.2 cfgFail
      [10, 32, 32, 104, 101, 108, 108, 111, 32, 32, 10] []
      ("\n  hello  \n".data) [] [] (by decide) (by decide)).1⟩

/-! ## Claim C8 -/

/-- C8: with interval 0 the inner wait loop performs no polling at all —
its outcome is a timeout regardless of the events that would have arrived,
so a `q` or Ctrl+C key event is never observed and keyboard cancellation is
unreachable: no run of `watch` with interval 0 can end in the cancelled
(`completed`) state. -/
theorem c8_zero_interval_no_cancellation :
    (∀ evs evs2 : List Event,
      waitPhase 0 evs = .timedOut ∧ waitPhase 0 evs = waitPhase 0 evs2) ∧
    ∀ (cfg : WatchConfig) (script : List Iter), cfg.interval = 0 →
      (watch cfg script).2 ≠ .completed := by
  constructor
  · intro evs evs2
    constructor <;> simp [waitPhase]
  · intro cfg script h0
    have h := watchLoop_no_quit_of_zero cfg h0 script
    rw [watch]
    rcases hres : watchLoop cfg script with ⟨tr, res⟩
    rw [hres] at h
    cases res <;> simp_all

/-- Witness for C8: a script offering a `q` key still cannot cancel when
the interval is 0. -/
theorem c8_zero_interval_no_cancellation_witness :
    cfgZero.interval = 0 ∧
    (watch cfgZero [⟨⟨true, some 0, [], []⟩, [Event.key (.char 'q') 0]⟩]).2 ≠
      .completed :=
  ⟨rfl,
   c8_zero_interval_no_cancellation.2 cfgZero
     [⟨⟨true, some 0, [], []⟩, [Event.key (.char 'q') 0]⟩] rfl⟩

/-! ## Claim C9 -/

/-- C9: when the child terminates unsuccessfully without an exit code
(`status.code()` is `None`, e.g. killed by a signal), `watch` panics on the
`unwrap` of the exit code inside the error construction, instead of
returning an error. -/
theorem c9_unwrap_panic_on_missing_code (cfg : WatchConfig)
    (pres rest : List Iter) (out : CycleOutcome) (evs : List Event)
    (hpre : ∀ it ∈ pres, normalIter cfg it)
    (hfail : out.success = false) (hcode : out.exitCode = none) :
    watch cfg (pres ++ ⟨out, evs⟩ :: rest) =
      (enterActions ++ (pres.map (iterTrace cfg)).flatten ++
        (headerRender cfg ++ [execAction cfg]),
       .panicked unwrapNoneMsg) := by
  have h2 : watchLoop cfg (⟨out, evs⟩ :: rest) =
      (headerRender cfg ++ [execAction cfg], .panicked unwrapNoneMsg) := by
    simp [watchLoop, hfail, hcode]
  rw [watch, watchLoop_append_normal cfg pres _ hpre, h2]
  simp [List.append_assoc]

/-- Witness for C9 at a concrete signal-killed cycle. -/
theorem c9_unwrap_panic_on_missing_code_witness :
    (⟨false, none, [], []⟩ : CycleOutcome).exitCode = none ∧
    watch cfgFail ([] ++ ⟨⟨false, none, [], []⟩, []⟩ :: []) =
      (enterActions ++ (([] : List Iter).map (iterTrace cfgFail)).flatten ++
        (headerRender cfgFail ++ [execAction cfgFail]),
       .panicked unwrapNoneMsg) :=
  ⟨rfl,
   c9_unwrap_panic_on_missing_code cfgFail [] [] ⟨false, none, [], []⟩ []
     (fun it h => absurd h (List.not_mem_nil it)) rfl rfl⟩

/-! ## Claim C10 -/

/-- C10: whenever the queried terminal width is smaller than the length of
the interval banner, or smaller than the length of the quit-hint message —
each case independently — the corresponding right-align column
`width - len` underflows `u16` arithmetic: the header (resp. footer) places
the cursor at the wrapped value `width + (2 ^ 16 - len)` — a column
strictly beyond the screen width, not a valid on-screen column.  The only
global hypothesis is that the width fits in `u16`, which the type of
`crossterm::terminal::size()` guarantees. -/
theorem c10_u16_underflow (cfg : WatchConfig) (so se : String)
    (hw16 : cfg.width < 65536) :
    (cfg.width < (intervalMsg cfg.interval).length →
      (intervalMsg cfg.interval).length < 65536 →
      Action.moveToColumn (u16sub cfg.width (intervalMsg cfg.interval).length) ∈
        headerRender cfg ∧
      u16sub cfg.width (intervalMsg cfg.interval).length =
        cfg.width + (65536 - (intervalMsg cfg.interval).length) ∧
      cfg.width < u16sub cfg.width (intervalMsg cfg.interval).length) ∧
    (cfg.width < QUIT_MSG.length →
      u16sub cfg.width QUIT_MSG.length =
        cfg.width + (65536 - QUIT_MSG.length) ∧
      cfg.width < u16sub cfg.width QUIT_MSG.length ∧
      Action.moveTo (u16sub cfg.width QUIT_MSG.length) (u16sub cfg.height 1) ∈
        bodyRender so se cfg.width cfg.height) := by
  have hq : QUIT_MSG.length = 29 := by decide
  constructor
  · intro hmsg hlen
    refine ⟨by simp [headerRender], ?_, ?_⟩
    · rw [u16sub, Nat.mod_eq_of_lt hw16, Nat.mod_eq_of_lt hlen,
        Nat.mod_eq_of_lt (by omega)]
    · rw [u16sub, Nat.mod_eq_of_lt hw16, Nat.mod_eq_of_lt hlen,
        Nat.mod_eq_of_lt (by omega)]
      omega
  · intro hwq
    have h1 : u16sub cfg.width QUIT_MSG.length =
        cfg.width + (65536 - QUIT_MSG.length) := by
      rw [u16sub, Nat.mod_eq_of_lt hw16, hq]
      rw [Nat.mod_eq_of_lt (by omega), Nat.mod_eq_of_lt (by omega)]
    refine ⟨h1, ?_, by simp [bodyRender, outputSection, stderrSection]⟩
    rw [h1]
    omega

/-- Witness for C10, exercising both cases independently: the banner
branch on a 10-column terminal (width 10 < 12, the length of
`Interval: 5s`), and the footer branch on a 20-column terminal, where the
banner fits (20 ≥ 12) but the 29-character quit hint does not. -/
theorem c10_u16_underflow_witness :
    (cfgNarrow.width < (intervalMsg cfgNarrow.interval).length ∧
      cfgNarrow.width <
        u16sub cfgNarrow.width (intervalMsg cfgNarrow.interval).length) ∧
    (cfgMid.width < QUIT_MSG.length ∧
      ¬ cfgMid.width < (intervalMsg cfgMid.interval).length ∧
      cfgMid.width < u16sub cfgMid.width QUIT_MSG.length) :=
  ⟨⟨by decide,
    ((c10_u16_underflow cfgNarrow "" "" (by decide)).1
      (by decide) (by decide)).2.2⟩,
   ⟨by decide, by decide,
    ((c10_u16_underflow cfgMid "" "" (by decide)).2 (by decide)).2.1⟩⟩

end WatchRs
